import Mathlib

/-!
# GitBeat — verification of the generation-client / tool-dispatch layer

Shallow embedding of the `gitbeat` repository (an adapter exposing the
ElevenLabs text-to-audio API through an MCP tool server and a standalone
REST API). Sources embedded:

* `src/mcp-server/gitbeat_mcp/elevenlabs_service.py` — the generation client
  (`ElevenLabsService.generate_music`, `generate_sound_effect`,
  `test_connection`, `get_available_models`).
* `src/mcp-server/gitbeat_mcp/tools.py` — tool catalog, response formatters,
  and the `handle_tool_call` dispatcher.
* `src/mcp-server/gitbeat_mcp/server.py` — the `call_tool` dispatcher and its
  per-tool handlers.
* `src/mcp-server/api.py` — the standalone REST service's own copy of the
  generation client (`Api` namespace here).
* `src/mcp-server/gitbeat_mcp/config.py` — the configuration record defaults.

Python dictionaries returned by the service are embedded as structures with
`Option` fields (a missing key is `none`).  The upstream HTTP response is
embedded as explicit data (status code plus either a parsed JSON body or raw
bytes) since the code branches only on those observations.  Machine bytes are
`Nat` with an explicit `< 256` bound where it matters.
-/

namespace GitBeat

/-! ## Base64 (model of Python `base64.b64encode` / `base64.b64decode`)

`b64encode` maps each 3-byte group to 4 alphabet characters and pads the
final partial group with `=`.  `b64decode` mirrors CPython's default
(`validate := false`) behaviour on the inputs this development touches:
characters outside the alphabet-or-padding set are discarded, a total
length that is not a multiple of 4 is rejected (Python raises
`binascii.Error: Incorrect padding`, embedded as `none`), and a data-group
remainder of 1 is likewise rejected. -/

def b64Alphabet : List Char :=
  "ABCDEFGHIJKLMNOPQRSTUVWXYZabcdefghijklmnopqrstuvwxyz0123456789+/".data

/-- Character for a 6-bit value. -/
def sextetChar (n : Nat) : Char := b64Alphabet.getD n 'A'

/-- 6-bit value of an alphabet character (`none` for a foreign character). -/
def charSextet (c : Char) : Option Nat := b64Alphabet.indexOf? c

/-- The 6-bit values of a byte string, grouped 3 bytes → 4 sextets, with the
final 1- or 2-byte group shortened (2 or 3 sextets, low bits zero). -/
def b64Sextets : List Nat → List Nat
  | [] => []
  | [b1] => [b1 / 4, b1 % 4 * 16]
  | [b1, b2] => [b1 / 4, b1 % 4 * 16 + b2 / 16, b2 % 16 * 4]
  | b1 :: b2 :: b3 :: rest =>
      (b1 / 4) :: (b1 % 4 * 16 + b2 / 16) :: (b2 % 16 * 4 + b3 / 64) :: (b3 % 64) ::
        b64Sextets rest

/-- Padding characters appended for a final partial group. -/
def b64Pad (bs : List Nat) : List Char :=
  match bs.length % 3 with
  | 1 => ['=', '=']
  | 2 => ['=']
  | _ => []

/-- Python `base64.b64encode(bs).decode("utf-8")`. -/
def b64encode (bs : List Nat) : String :=
  String.mk ((b64Sextets bs).map sextetChar ++ b64Pad bs)

/-- Rebuild bytes from an unpadded sextet sequence; a remainder of one sextet
is invalid (Python: "number of data characters cannot be 1 more than a
multiple of 4"). -/
def b64DecodeSextets : List Nat → Option (List Nat)
  | [] => some []
  | [_] => none
  | [c1, c2] => some [c1 * 4 + c2 / 16]
  | [c1, c2, c3] => some [c1 * 4 + c2 / 16, c2 % 16 * 16 + c3 / 4]
  | c1 :: c2 :: c3 :: c4 :: rest =>
      (b64DecodeSextets rest).map
        (fun bs => (c1 * 4 + c2 / 16) :: (c2 % 16 * 16 + c3 / 4) :: (c3 % 4 * 64 + c4) :: bs)

/-- Python `base64.b64decode(s)`: `none` embeds the raised `binascii.Error`. -/
def b64decode (s : String) : Option (List Nat) :=
  let cs := s.data.filter (fun c => (charSextet c).isSome || c == '=')
  if cs.length % 4 = 0 then
    ((cs.takeWhile (fun c => c != '=')).mapM charSextet).bind b64DecodeSextets
  else none

/-! ### Round-trip law for the base64 model -/

theorem charSextet_sextetChar : ∀ n, n < 64 → charSextet (sextetChar n) = some n := by
  decide

theorem sextetChar_ne_pad : ∀ n, n < 64 → sextetChar n ≠ '=' := by
  decide

theorem b64Sextets_lt (bs : List Nat) (h : ∀ b ∈ bs, b < 256) :
    ∀ n ∈ b64Sextets bs, n < 64 := by
  induction bs using b64Sextets.induct with
  | case1 => intro n hn; simp [b64Sextets] at hn
  | case2 b1 =>
    have hb1 : b1 < 256 := h b1 (by simp)
    intro n hn
    simp [b64Sextets] at hn
    rcases hn with h1 | h1 <;> omega
  | case3 b1 b2 =>
    have hb1 : b1 < 256 := h b1 (by simp)
    have hb2 : b2 < 256 := h b2 (by simp)
    intro n hn
    simp [b64Sextets] at hn
    rcases hn with h1 | h1 | h1 <;> omega
  | case4 b1 b2 b3 rest ih =>
    have hb1 : b1 < 256 := h b1 (by simp)
    have hb2 : b2 < 256 := h b2 (by simp)
    have hb3 : b3 < 256 := h b3 (by simp)
    intro n hn
    simp only [b64Sextets, List.mem_cons] at hn
    rcases hn with h1 | h1 | h1 | h1 | h1
    · omega
    · omega
    · omega
    · omega
    · exact ih (fun b hb => h b (by simp [hb])) n h1

theorem b64DecodeSextets_b64Sextets (bs : List Nat) (h : ∀ b ∈ bs, b < 256) :
    b64DecodeSextets (b64Sextets bs) = some bs := by
  induction bs using b64Sextets.induct with
  | case1 => rfl
  | case2 b1 =>
    have hb1 : b1 < 256 := h b1 (by simp)
    simp only [b64Sextets, b64DecodeSextets, Option.some.injEq, List.cons.injEq, and_true]
    omega
  | case3 b1 b2 =>
    have hb1 : b1 < 256 := h b1 (by simp)
    have hb2 : b2 < 256 := h b2 (by simp)
    simp only [b64Sextets, b64DecodeSextets, Option.some.injEq, List.cons.injEq, and_true]
    constructor <;> omega
  | case4 b1 b2 b3 rest ih =>
    have hb1 : b1 < 256 := h b1 (by simp)
    have hb2 : b2 < 256 := h b2 (by simp)
    have hb3 : b3 < 256 := h b3 (by simp)
    have ih' := ih (fun b hb => h b (by simp [hb]))
    simp only [b64Sextets, b64DecodeSextets, ih', Option.map_some',
      Option.some.injEq, List.cons.injEq]
    refine ⟨by omega, by omega, by omega, trivial⟩

theorem b64Pad_mem (bs : List Nat) : ∀ c ∈ b64Pad bs, c = '=' := by
  unfold b64Pad
  split <;> simp

theorem b64_group_length (bs : List Nat) :
    ((b64Sextets bs).length + (b64Pad bs).length) % 4 = 0 := by
  induction bs using b64Sextets.induct with
  | case1 => rfl
  | case2 b1 => simp [b64Sextets, b64Pad]
  | case3 b1 b2 => simp [b64Sextets, b64Pad]
  | case4 b1 b2 b3 rest ih =>
    have hpad : b64Pad (b1 :: b2 :: b3 :: rest) = b64Pad rest := by
      simp only [b64Pad, List.length_cons]
      have : (rest.length + 1 + 1 + 1) % 3 = rest.length % 3 := by omega
      rw [this]
    simp only [b64Sextets, List.length_cons, hpad]
    omega

theorem takeWhile_append_of_all {p : Char → Bool} (xs ys : List Char)
    (h : ∀ x ∈ xs, p x = true) :
    (xs ++ ys).takeWhile p = xs ++ ys.takeWhile p := by
  induction xs with
  | nil => simp
  | cons a l ih =>
    have ha : p a = true := h a (by simp)
    simp only [List.cons_append, List.takeWhile_cons, ha, if_true]
    rw [ih (fun x hx => h x (by simp [hx]))]

theorem b64Pad_takeWhile (bs : List Nat) :
    (b64Pad bs).takeWhile (fun c => c != '=') = [] := by
  unfold b64Pad
  split <;> rfl

theorem mapM_charSextet_map (ns : List Nat) (h : ∀ n ∈ ns, n < 64) :
    (ns.map sextetChar).mapM charSextet = some ns := by
  induction ns with
  | nil => rfl
  | cons a l ih =>
    have ha : a < 64 := h a (by simp)
    simp only [List.map_cons, List.mapM_cons, charSextet_sextetChar a ha,
      ih (fun n hn => h n (by simp [hn])), Option.pure_def, Option.bind_eq_bind,
      Option.some_bind]

/-- Round-trip law of the base64 model: decoding an encoding recovers the
original bytes. -/
theorem b64decode_b64encode (bs : List Nat) (h : ∀ b ∈ bs, b < 256) :
    b64decode (b64encode bs) = some bs := by
  have hlt := b64Sextets_lt bs h
  have hfilter :
      ((b64Sextets bs).map sextetChar ++ b64Pad bs).filter
        (fun c => (charSextet c).isSome || c == '=') =
      (b64Sextets bs).map sextetChar ++ b64Pad bs := by
    rw [List.filter_eq_self]
    intro c hc
    rcases List.mem_append.mp hc with hc | hc
    · rcases List.mem_map.mp hc with ⟨n, hn, rfl⟩
      simp [charSextet_sextetChar n (hlt n hn)]
    · simp [b64Pad_mem bs c hc]
  have hlen : ((b64Sextets bs).map sextetChar ++ b64Pad bs).length % 4 = 0 := by
    simp only [List.length_append, List.length_map]
    exact b64_group_length bs
  have htake :
      ((b64Sextets bs).map sextetChar ++ b64Pad bs).takeWhile (fun c => c != '=') =
      (b64Sextets bs).map sextetChar := by
    rw [takeWhile_append_of_all]
    · rw [b64Pad_takeWhile, List.append_nil]
    · intro x hx
      rcases List.mem_map.mp hx with ⟨n, hn, rfl⟩
      simpa using sextetChar_ne_pad n (hlt n hn)
  show (let cs := (String.mk ((b64Sextets bs).map sextetChar ++ b64Pad bs)).data.filter
          (fun c => (charSextet c).isSome || c == '=');
        if cs.length % 4 = 0 then
          ((cs.takeWhile (fun c => c != '=')).mapM charSextet).bind b64DecodeSextets
        else none) = some bs
  simp only [hfilter, hlen, if_true, htake,
    mapM_charSextet_map _ hlt, Option.some_bind]
  exact b64DecodeSextets_b64Sextets bs h

/-! ## Data model

`config.py` — `MCPServerConfig` (only the fields the embedded code reads;
`default_prompt_influence` is accepted by `generate_music` but never placed
into the upstream request, so it is omitted along with the other unread
fields). -/

structure MCPConfig where
  elevenlabs_api_key : String := ""
  default_duration : Int := 10
  max_duration : Int := 30
deriving DecidableEq

/-- The process-default configuration (`config = MCPServerConfig()` with no
environment overrides). -/
def defaultConfig : MCPConfig := {}

/-- A composition-plan section as read by the lyrics extraction
(`section.get("section_name", "")`, `section.get("lines", [])` — absent keys
are folded into the default values). -/
structure PlanSection where
  section_name : String
  lines : List String
deriving DecidableEq

/-- `composition_plan.get("sections", [])`. A `none` plan below stands for a
missing or empty (falsy) `composition_plan` value. -/
structure CompositionPlan where
  sections : List PlanSection
deriving DecidableEq

/-- The `audio` field of a parsed upstream JSON body:
`response_data.get("audio", b"")` yields a string, bytes, or (absent) `b""`. -/
inductive AudioField where
  | str (s : String)
  | bytes (bs : List Nat)
  | missing
deriving DecidableEq

/-- Parsed upstream JSON body of the detailed music endpoint, restricted to
the keys the code reads. `song_metadata` is an opaque pass-through blob,
embedded as its rendered form. -/
structure UpstreamJson where
  audio : AudioField
  composition_plan : Option CompositionPlan
  song_metadata : Option String
deriving DecidableEq

/-- Upstream HTTP response body for the music endpoint: either it parses as
JSON (`parsed`, carrying also `rendered`, the text Python produces for
`f"{response.json()}"`, used on the error path) or it does not (`raw`,
carrying `response.content`). -/
inductive MusicBody where
  | parsed (j : UpstreamJson) (rendered : String)
  | raw (content : List Nat)
deriving DecidableEq

structure MusicResponse where
  status : Nat
  body : MusicBody
deriving DecidableEq

/-- Upstream response for the sound-generation endpoint: `content` is the
response body bytes; `rendered` is `some` of the text of `f"{response.json()}"`
when the body parses as JSON (used only on the error path). -/
structure SoundResponse where
  status : Nat
  content : List Nat
  rendered : Option String := none
deriving DecidableEq

/-- `response.text`: the response body decoded as text. -/
def textOfBytes (bs : List Nat) : String := String.mk (bs.map Char.ofNat)

/-- The timestamp and uuid drawn by the service when naming a generated file
(`datetime.now().strftime("%Y%m%d_%H%M%S")`, `str(uuid.uuid4())`). -/
structure FileMeta where
  timestamp : String
  uuid : String
deriving DecidableEq

def defaultMeta : FileMeta := ⟨"20250101_000000", "abcdef12-0000"⟩

/-- Normalized result dictionary of the generation client. Absent keys are
`none`; `lyrics`/`composition_plan`/`song_metadata` appear only in the
standalone REST client's music result (`api.py`). -/
structure GenResult where
  success : Bool
  audio_base64 : Option String := none
  duration_seconds : Option Int := none
  prompt : Option String := none
  filename : Option String := none
  file_size : Option Nat := none
  mime_type : Option String := none
  lyrics : Option String := none
  composition_plan : Option CompositionPlan := none
  song_metadata : Option String := none
  error : Option String := none
deriving DecidableEq

/-! ## Generation client (`gitbeat_mcp/elevenlabs_service.py`) -/

/-- Python `x or default` on an optional integer argument (`None` and `0` are
falsy). -/
def pyOrInt (v : Option Int) (dflt : Int) : Int :=
  match v with
  | none => dflt
  | some n => if n = 0 then dflt else n

/-- Duration normalization of `ElevenLabsService.generate_music`
(`elevenlabs_service.py` lines 65-72): default, then floor 10, then the
configured ceiling. -/
def clampMusicDuration (cfg : MCPConfig) (dur : Option Int) : Int :=
  let d := pyOrInt dur cfg.default_duration
  let d := if d < 10 then 10 else d
  if d > cfg.max_duration then cfg.max_duration else d

/-- `request_data["music_length_ms"]` sent to the detailed music endpoint
(line 79): the normalized duration in milliseconds. -/
def musicRequestMs (cfg : MCPConfig) (dur : Option Int) : Int :=
  clampMusicDuration cfg dur * 1000

/-- Python `"\n".join(lines)`. -/
def pyJoinNl : List String → String
  | [] => ""
  | [x] => x
  | x :: xs => x ++ "\n" ++ pyJoinNl xs

/-- Text contributed to the lyrics by one composition section (lines 115-121):
a section with a falsy `lines` list is skipped entirely; otherwise an optional
bracketed header, the newline-joined lines, and a blank separator line. -/
def sectionText (sec : PlanSection) : String :=
  if sec.lines = [] then ""
  else
    (if sec.section_name = "" then "" else "[" ++ sec.section_name ++ "]\n")
      ++ pyJoinNl sec.lines ++ "\n\n"

def strConcat : List String → String
  | [] => ""
  | s :: rest => s ++ strConcat rest

/-- Lyrics extraction from the composition plan (lines 111-121); `none` is a
missing or falsy plan. -/
def extractLyrics : Option CompositionPlan → String
  | none => ""
  | some p => strConcat (p.sections.map sectionText)

/-- `f"music_{timestamp}_{unique_id}.mp3"` with `unique_id = str(uuid4())[:8]`. -/
def musicFilename (m : FileMeta) : String :=
  "music_" ++ m.timestamp ++ "_" ++ m.uuid.take 8 ++ ".mp3"

def soundFilename (m : FileMeta) : String :=
  "sound_" ++ m.timestamp ++ "_" ++ m.uuid.take 8 ++ ".mp3"

/-- `audio_base64` computed from the parsed JSON `audio` field (lines
99-105): a string passes through unchanged, bytes are base64-encoded, an
absent field is the empty byte string `b""` encoded. -/
def audioFieldBase64 : AudioField → String
  | .str s => s
  | .bytes bs => b64encode bs
  | .missing => b64encode []

/-- Error string of the music failure branch (lines 148-157): HTTP status
plus the parsed JSON detail when the body parses, else the body text. -/
def musicErrorMsg (resp : MusicResponse) : String :=
  "Music generation failed: HTTP " ++ toString resp.status ++ " - " ++
    (match resp.body with
     | .parsed _ rendered => rendered
     | .raw bs => textOfBytes bs)

/-- `ElevenLabsService.generate_music` (lines 56-161), as a function of the
upstream response. On 200 with a parsed JSON body the `audio` field becomes
`audio_base64` (string as-is, bytes encoded); on 200 without a parseable body
the whole body is treated as raw audio and encoded. `file_size` is
`len(base64.b64decode(audio_base64)) if audio_base64 else 0`; a
non-decodable string makes that call raise `binascii.Error`, which the
enclosing `except Exception` turns into a failure result (embedded as the
`none` branch of `b64decode`; the exact Python exception text is
environment-dependent, a fixed stand-in string is used). Lyrics are
extracted (lines 111-121) but this service's result dictionary does not
include them (lines 139-147). -/
def generateMusic (cfg : MCPConfig) (prompt : String) (dur : Option Int)
    (meta : FileMeta) (resp : MusicResponse) : GenResult :=
  let d := clampMusicDuration cfg dur
  if resp.status = 200 then
    let ab :=
      match resp.body with
      | .parsed j _ => audioFieldBase64 j.audio
      | .raw bs => b64encode bs
    if ab = "" then
      { success := true, audio_base64 := some ab, duration_seconds := some d,
        prompt := some prompt, filename := some (musicFilename meta),
        file_size := some 0, mime_type := some "audio/mpeg" }
    else
      match b64decode ab with
      | some bytes =>
        { success := true, audio_base64 := some ab, duration_seconds := some d,
          prompt := some prompt, filename := some (musicFilename meta),
          file_size := some bytes.length, mime_type := some "audio/mpeg" }
      | none =>
        { success := false, error := some "Invalid base64-encoded string" }
  else
    { success := false, error := some (musicErrorMsg resp) }

/-- Error string of the sound failure branch (lines 209-218). -/
def soundErrorMsg (r : SoundResponse) : String :=
  "Sound generation failed: HTTP " ++ toString r.status ++ " - " ++
    (match r.rendered with
     | some j => j
     | none => textOfBytes r.content)

/-- `ElevenLabsService.generate_sound_effect` (lines 163-222): duration
defaults to 5 (`duration_seconds or 5`), a 200 body is treated wholly as raw
audio bytes, base64-encoded for transport; `file_size` is `len(audio_data)`. -/
def generateSoundEffect (prompt : String) (dur : Option Int)
    (meta : FileMeta) (r : SoundResponse) : GenResult :=
  let d := pyOrInt dur 5
  if r.status = 200 then
    { success := true, audio_base64 := some (b64encode r.content),
      filename := some (soundFilename meta), file_size := some r.content.length,
      duration_seconds := some d, prompt := some prompt,
      mime_type := some "audio/mpeg" }
  else
    { success := false, error := some (soundErrorMsg r) }

/-- `ElevenLabsService.test_connection` (lines 34-54) as a function of the
upstream status. -/
structure ConnResult where
  success : Bool
  message : String
deriving DecidableEq

def testConnection (status : Nat) : ConnResult :=
  if status = 200 then ⟨true, "Connection successful"⟩
  else ⟨false, "API test failed: " ++ toString status⟩

structure ModelInfo where
  name : String
  model_id : String
  description : String
deriving DecidableEq

/-- Parsed body of the models-listing endpoint: a raw list or an object with
a `models` key — `get_available_models` (line 236) normalizes both to a
list. -/
inductive ModelsBody where
  | asList (l : List ModelInfo)
  | asObj (l : List ModelInfo)
deriving DecidableEq

structure ModelsResponse where
  status : Nat
  body : ModelsBody
deriving DecidableEq

structure ModelsResult where
  success : Bool
  models : List ModelInfo := []
  error : Option String := none
deriving DecidableEq

/-- `ElevenLabsService.get_available_models` (lines 224-246). -/
def getAvailableModels (r : ModelsResponse) : ModelsResult :=
  if r.status = 200 then
    { success := true,
      models := match r.body with
                | .asList l => l
                | .asObj l => l }
  else
    { success := false, error := some ("HTTP " ++ toString r.status) }

/-! ## Standalone REST client (`api.py`, its own `ElevenLabsService`)

This copy of the client performs no duration normalization: the schema bound
(`ge=1, le=30`) is the only check, applied by the REST façade before the call.
Only the pieces the claims inspect are embedded; the optional composition-mode
`style_settings` block adds request keys but never alters `music_length_ms`
or the result fields below. -/

namespace Api

/-- `request_data["music_length_ms"]` of `api.py` `generate_music`
(line 121): the requested duration converted to milliseconds, unclamped. -/
def musicLengthMs (duration_seconds : Int) : Int := duration_seconds * 1000

/-- `api.py` `ElevenLabsService.generate_music` (lines 104-225) as a function
of the upstream response. Identical audio/lyrics handling to the MCP service,
but no duration clamping, and the result also carries `lyrics`,
`composition_plan` and `song_metadata`. -/
def generateMusic (prompt : String) (duration_seconds : Int)
    (meta : FileMeta) (resp : MusicResponse) : GenResult :=
  if resp.status = 200 then
    let ab :=
      match resp.body with
      | .parsed j _ => audioFieldBase64 j.audio
      | .raw bs => b64encode bs
    let lyr :=
      match resp.body with
      | .parsed j _ => extractLyrics j.composition_plan
      | .raw _ => ""
    let plan :=
      match resp.body with
      | .parsed j _ => j.composition_plan
      | .raw _ => none
    let sm :=
      match resp.body with
      | .parsed j _ => j.song_metadata
      | .raw _ => none
    if ab = "" then
      { success := true, audio_base64 := some ab,
        filename := some (musicFilename meta), file_size := some 0,
        duration_seconds := some duration_seconds, prompt := some prompt,
        mime_type := some "audio/mpeg", lyrics := some lyr,
        composition_plan := plan, song_metadata := sm }
    else
      match b64decode ab with
      | some bytes =>
        { success := true, audio_base64 := some ab,
          filename := some (musicFilename meta), file_size := some bytes.length,
          duration_seconds := some duration_seconds, prompt := some prompt,
          mime_type := some "audio/mpeg", lyrics := some lyr,
          composition_plan := plan, song_metadata := sm }
      | none =>
        { success := false, error := some "Invalid base64-encoded string" }
  else
    { success := false, error := some (musicErrorMsg resp) }

end Api

/-! ## Tool formatters and dispatch (`gitbeat_mcp/tools.py`) -/

/-- `mcp.types.TextContent` restricted to the fields the code sets. -/
structure TextContent where
  type : String
  text : String
deriving DecidableEq

/-- Python rendering of an optional string in an f-string (`None` prints as
`"None"`). -/
def pyShowOptStr : Option String → String
  | none => "None"
  | some s => s

def pyShowOptNat : Option Nat → String
  | none => "None"
  | some n => toString n

def pyShowOptInt : Option Int → String
  | none => "None"
  | some n => toString n

/-- The success text of `format_audio_response` (tools.py lines 164-176). -/
def audioResponseText (r : GenResult) : String :=
  "✅ Music generated successfully!\n\n"
    ++ "**🎵 Audio:** " ++ pyShowOptStr r.filename ++ "\n"
    ++ "**⏱️ Duration:** " ++ pyShowOptInt r.duration_seconds ++ " seconds\n"
    ++ "**📝 Prompt:** " ++ pyShowOptStr r.prompt ++ "\n"
    ++ "**📊 File Size:** " ++ pyShowOptNat r.file_size ++ " bytes\n"
    ++ "**🎵 Type:** " ++ pyShowOptStr (some (r.mime_type.getD "audio/mpeg")) ++ "\n"
    ++ "\n**🎵 Audio Data (Base64):**\n"
    ++ "```\n" ++ pyShowOptStr r.audio_base64 ++ "\n```\n\n"
    ++ "**💡 Usage:**\n"
    ++ "1. Copy the base64 data above\n"
    ++ "2. Decode it to get the MP3 file\n"
    ++ "3. Save as `" ++ pyShowOptStr r.filename ++ "`"

/-- `format_audio_response` (tools.py lines 150-183): the `if result.get
("success")` branch builds the text block; there is no `else` branch, so a
failure result falls off the end of the function and returns Python `None`
(embedded as `none`). -/
def formatAudioResponse (r : GenResult) : Option (List TextContent) :=
  if r.success then some [⟨"text", audioResponseText r⟩] else none

/-- `format_connection_test_response` (tools.py lines 255-270). -/
def formatConnectionTestResponse (r : ConnResult) : List TextContent :=
  if r.success then
    [⟨"text", "✅ ElevenLabs API connection successful! The service is available and ready to generate music."⟩]
  else
    [⟨"text", "❌ ElevenLabs API connection failed: " ++ r.message⟩]

/-- The numbered model listing of `format_models_response` (lines 279-284). -/
def modelsListText : Nat → List ModelInfo → String
  | _, [] => ""
  | i, m :: rest =>
      "**" ++ toString i ++ ". " ++ m.name ++ "** (`" ++ m.model_id ++ "`)\n"
        ++ "   " ++ m.description ++ "\n\n" ++ modelsListText (i + 1) rest

/-- `format_models_response` (tools.py lines 273-295). -/
def formatModelsResponse (r : ModelsResult) : List TextContent :=
  if r.success then
    if r.models ≠ [] then
      [⟨"text", "🎵 **Available ElevenLabs Models:**\n\n" ++ modelsListText 1 r.models⟩]
    else
      [⟨"text", "No models found."⟩]
  else
    [⟨"text", "❌ Failed to get models: " ++ pyShowOptStr (some (r.error.getD "Unknown error"))⟩]

/-- `get_example_prompts()["music_examples"]` (tools.py lines 123-134). -/
def musicExamples : List String :=
  [ "A cheerful upbeat electronic dance music track with synthesizers",
    "Relaxing ambient music with soft piano and nature sounds",
    "Energetic rock guitar riff with drums",
    "Classical orchestral piece with strings and woodwinds",
    "Jazz saxophone melody with walking bass line",
    "Lo-fi hip hop beat with vinyl crackle",
    "Cinematic epic orchestral music with brass and timpani",
    "Acoustic folk guitar with harmonica",
    "Synthwave retro 80s electronic music",
    "Peaceful meditation music with Tibetan bowls" ]

/-- `get_example_prompts()["sound_effect_examples"]` (lines 135-146). -/
def soundEffectExamples : List String :=
  [ "Gentle rain falling on leaves",
    "Ocean waves crashing on the shore",
    "Birds chirping in a forest",
    "Crackling campfire",
    "Thunder and lightning storm",
    "City traffic and car horns",
    "Footsteps on gravel",
    "Wind blowing through trees",
    "Coffee shop ambient noise",
    "Mechanical keyboard typing sounds" ]

/-- `for i, example in enumerate(examples, 1): ... f"{i}. {example}\n"`. -/
def numberedFrom : Nat → List String → String
  | _, [] => ""
  | i, x :: xs => toString i ++ ". " ++ x ++ "\n" ++ numberedFrom (i + 1) xs

/-- The static examples text of `format_examples_response` (lines 298-320). -/
def examplesText : String :=
  "🎵 **Music Generation Examples:**\n\n"
    ++ "**Music Prompts:**\n" ++ numberedFrom 1 musicExamples
    ++ "\n**Sound Effect Prompts:**\n" ++ numberedFrom 1 soundEffectExamples
    ++ "\n**Usage Tips:**\n"
    ++ "- Be descriptive about the style, instruments, and mood\n"
    ++ "- Specify tempo (slow, medium, fast, upbeat, etc.)\n"
    ++ "- Mention specific instruments or sounds you want\n"
    ++ "- Include emotional descriptors (happy, sad, energetic, calm)\n"
    ++ "- For sound effects, be specific about the environment and action\n"
    ++ "- **Important**: You need your own ElevenLabs API key to use this service"

/-- `format_examples_response()` (tools.py lines 298-320) — note: a function
of NO arguments. -/
def formatExamplesResponse : List TextContent := [⟨"text", examplesText⟩]

/-! ## Dispatch (`tools.py handle_tool_call` and `server.py call_tool`)

Both dispatchers are embedded as functions of the tool arguments plus an
`UpstreamEnv` describing what the upstream API would answer; the second
component of the returned pair counts the outbound HTTP calls the dispatch
performs (client operations invoked), so that "no HTTP call is made" is a
statable fact. -/

/-- The bag of arguments a tool call may carry (`arguments.get(...)` keys the
dispatchers read). `prompt_influence` is read and forwarded but never reaches
an upstream request, so it is omitted. A missing key is `none`. -/
structure ToolArgs where
  prompt : Option String := none
  duration_seconds : Option Int := none
  elevenlabs_api_key : Option String := none
deriving DecidableEq

/-- What the upstream API would answer to each operation, plus the drawn file
metadata. -/
structure UpstreamEnv where
  music : MusicResponse
  sound : SoundResponse
  connStatus : Nat
  models : ModelsResponse
  meta : FileMeta
deriving DecidableEq

def defaultEnv : UpstreamEnv :=
  { music := ⟨200, .raw []⟩, sound := ⟨200, [], none⟩, connStatus := 200,
    models := ⟨200, .asList []⟩, meta := defaultMeta }

/-- Python truthiness of `arguments.get("elevenlabs_api_key")` (`if not
api_key`): missing (`None`) and empty string are falsy. -/
def pyTruthyStr : Option String → Bool
  | none => false
  | some s => s ≠ ""

/-- Outcome of `handle_tool_call`: either `{"content": ...}` (whose value is
`None` when `format_audio_response` returned `None`) or `{"error": ...}`. -/
inductive ToolOutcome where
  | content (c : Option (List TextContent))
  | error (msg : String)
deriving DecidableEq

/-- `handle_tool_call` (tools.py lines 186-252). Every branch that needs the
credential checks `arguments.get("elevenlabs_api_key")` for truthiness before
constructing the service, so a missing or empty key returns the error
dictionary with zero upstream calls. The `get_music_examples` branch calls
`format_examples_response(result)` — but that function takes no parameters,
so the call raises `TypeError`, which the enclosing `except Exception`
converts into the `Tool execution failed` error dictionary (the embedded
string is CPython's message for that `TypeError`). -/
def handleToolCall (cfg : MCPConfig) (env : UpstreamEnv) (tool : String)
    (args : ToolArgs) : ToolOutcome × Nat :=
  if tool = "generate_music" then
    if pyTruthyStr args.elevenlabs_api_key then
      (.content (formatAudioResponse
         (generateMusic cfg (args.prompt.getD "") args.duration_seconds
            env.meta env.music)), 1)
    else (.error "ElevenLabs API key is required", 0)
  else if tool = "generate_sound_effect" then
    if pyTruthyStr args.elevenlabs_api_key then
      (.content (formatAudioResponse
         (generateSoundEffect (args.prompt.getD "") args.duration_seconds
            env.meta env.sound)), 1)
    else (.error "ElevenLabs API key is required", 0)
  else if tool = "test_elevenlabs_connection" then
    if pyTruthyStr args.elevenlabs_api_key then
      (.content (some (formatConnectionTestResponse (testConnection env.connStatus))), 1)
    else (.error "ElevenLabs API key is required", 0)
  else if tool = "get_available_models" then
    if pyTruthyStr args.elevenlabs_api_key then
      (.content (some (formatModelsResponse (getAvailableModels env.models))), 1)
    else (.error "ElevenLabs API key is required", 0)
  else if tool = "get_music_examples" then
    (.error "Tool execution failed: format_examples_response() takes 0 positional arguments but 1 was given", 0)
  else
    (.error ("Unknown tool: " ++ tool), 0)

/-! ## RPC façade dispatch (`server.py call_tool`, lines 53-166) -/

/-- `mcp.types.CallToolResult` restricted to the field the code sets. -/
structure CallToolOut where
  content : Option (List TextContent)
deriving DecidableEq

/-- `call_tool` (server.py lines 53-100) plus its per-tool handlers (lines
103-166). The service is constructed BEFORE dispatching on the tool name:
`ElevenLabsService(api_key=arguments.get("elevenlabs_api_key", ""))` falls
back to `config.elevenlabs_api_key` when the argument is falsy and raises
`ValueError` when both are empty; the surrounding `except Exception` turns
that into the `❌ Error executing tool ...` text — even for
`get_music_examples`, which needs no credential. -/
def callTool (cfg : MCPConfig) (env : UpstreamEnv) (name : String)
    (args : ToolArgs) : CallToolOut × Nat :=
  let key := args.elevenlabs_api_key.getD ""
  let effective := if key = "" then cfg.elevenlabs_api_key else key
  if effective = "" then
    (⟨some [⟨"text", "❌ Error executing tool " ++ name ++ ": ElevenLabs API key is required. Please provide it in the request."⟩]⟩, 0)
  else if name = "generate_music" then
    let prompt := args.prompt.getD ""
    if prompt = "" then
      (⟨some [⟨"text", "❌ Error: \x27prompt\x27 parameter is required for music generation"⟩]⟩, 0)
    else
      (⟨formatAudioResponse
          (generateMusic cfg prompt
             (some (args.duration_seconds.getD cfg.default_duration))
             env.meta env.music)⟩, 1)
  else if name = "generate_sound_effect" then
    let prompt := args.prompt.getD ""
    if prompt = "" then
      (⟨some [⟨"text", "❌ Error: \x27prompt\x27 parameter is required for sound effect generation"⟩]⟩, 0)
    else
      (⟨formatAudioResponse
          (generateSoundEffect prompt (some (args.duration_seconds.getD 5))
             env.meta env.sound)⟩, 1)
  else if name = "test_elevenlabs_connection" then
    (⟨some (formatConnectionTestResponse (testConnection env.connStatus))⟩, 1)
  else if name = "get_available_models" then
    (⟨some (formatModelsResponse (getAvailableModels env.models))⟩, 1)
  else if name = "get_music_examples" then
    (⟨some formatExamplesResponse⟩, 0)
  else
    (⟨some [⟨"text", "❌ Unknown tool: " ++ name⟩]⟩, 0)

/-! ## Physical lines of the extracted lyrics

To state the lyrics claim, the output string is split into its physical
lines (the maximal `'\n'`-free runs); a bracketed section-name header is a
line of the shape `[...]`. -/

/-- Split a character sequence at every newline (always returns at least one,
possibly empty, line). -/
def splitNl : List Char → List (List Char)
  | [] => [[]]
  | c :: rest =>
    if c = '\n' then [] :: splitNl rest
    else
      match splitNl rest with
      | [] => [[c]]
      | l :: ls => (c :: l) :: ls

/-- The physical lines of a string. -/
def lyricsLines (s : String) : List (List Char) := splitNl s.data

/-- A bracketed section-name header: a line starting with `[` and ending
with `]`. -/
def isHeaderLine (l : List Char) : Bool :=
  decide (2 ≤ l.length) && l.head? == some '[' && l.getLast? == some ']'

/-- A content line: non-empty and not a header. -/
def isContentLine (l : List Char) : Bool := !l.isEmpty && !isHeaderLine l

theorem splitNl_ne_nil (cs : List Char) : splitNl cs ≠ [] := by
  cases cs with
  | nil => simp [splitNl]
  | cons c rest =>
    simp only [splitNl]
    split
    · simp
    · split <;> simp

theorem splitNl_cons_nl (ys : List Char) : splitNl ('\n' :: ys) = [] :: splitNl ys := by
  simp [splitNl]

theorem splitNl_append_nl (xs ys : List Char) (h : '\n' ∉ xs) :
    splitNl (xs ++ '\n' :: ys) = xs :: splitNl ys := by
  induction xs with
  | nil => simpa using splitNl_cons_nl ys
  | cons c l ih =>
    have hc : c ≠ '\n' := by intro hc; exact h (by simp [hc])
    have ih' := ih (fun hm => h (by simp [hm]))
    simp only [List.cons_append, splitNl, hc, if_false, List.append_eq, ih']

theorem splitNl_joined_lines (ls : List String) (hne : ls ≠ [])
    (hnl : ∀ l ∈ ls, '\n' ∉ l.data) (R : List Char) :
    splitNl ((pyJoinNl ls).data ++ '\n' :: '\n' :: R) =
      ls.map String.data ++ [] :: splitNl R := by
  induction ls with
  | nil => exact absurd rfl hne
  | cons x xs ih =>
    cases xs with
    | nil =>
      have hx : '\n' ∉ x.data := hnl x (by simp)
      simp only [pyJoinNl, List.map_cons, List.map_nil]
      rw [splitNl_append_nl x.data ('\n' :: R) hx, splitNl_cons_nl]
      simp
    | cons y ys =>
      have hx : '\n' ∉ x.data := hnl x (by simp)
      have ihy := ih (by simp) (fun l hl => hnl l (by simp [List.mem_cons] at hl ⊢; tauto))
      show splitNl ((x ++ "\n" ++ pyJoinNl (y :: ys)).data ++ '\n' :: '\n' :: R) = _
      have hdata : (x ++ "\n" ++ pyJoinNl (y :: ys)).data ++ '\n' :: '\n' :: R =
          x.data ++ '\n' :: ((pyJoinNl (y :: ys)).data ++ '\n' :: '\n' :: R) := by
        simp [String.data_append]
      rw [hdata, splitNl_append_nl _ _ hx, ihy]
      simp

theorem splitNl_sectionText (sec : PlanSection) (h1 : sec.section_name ≠ "")
    (h2 : sec.lines ≠ []) (hn : '\n' ∉ sec.section_name.data)
    (hl : ∀ l ∈ sec.lines, '\n' ∉ l.data) (R : List Char) :
    splitNl ((sectionText sec).data ++ R) =
      ('[' :: sec.section_name.data ++ [']']) ::
        (sec.lines.map String.data ++ [] :: splitNl R) := by
  have hdata : (sectionText sec).data ++ R =
      ('[' :: sec.section_name.data ++ [']']) ++
        '\n' :: ((pyJoinNl sec.lines).data ++ '\n' :: '\n' :: R) := by
    simp only [sectionText, h2, if_false, h1, if_false]
    simp [String.data_append]
  have hhdr : '\n' ∉ '[' :: sec.section_name.data ++ [']'] := by
    intro hm
    simp only [List.cons_append, List.mem_cons, List.mem_append,
      List.mem_singleton] at hm
    rcases hm with hm | hm | hm
    · exact absurd hm (by decide)
    · exact hn hm
    · exact absurd hm (by decide)
  rw [hdata, splitNl_append_nl _ _ hhdr, splitNl_joined_lines sec.lines h2 hl R]

theorem isHeaderLine_header (nm : List Char) :
    isHeaderLine ('[' :: nm ++ [']']) = true := by
  have h2 : ('[' :: nm ++ [']']).getLast? = some ']' := by
    simpa using List.getLast?_concat ('[' :: nm) (a := ']')
  have h3 : decide (2 ≤ ('[' :: nm ++ [']']).length) = true := by
    simp only [List.length_cons, List.length_append, List.length_singleton,
      decide_eq_true_eq]
    omega
  show (decide (2 ≤ ('[' :: nm ++ [']']).length)
      && ('[' :: nm ++ [']']).head? == some '['
      && ('[' :: nm ++ [']']).getLast? == some ']') = true
  rw [h2, h3]
  rfl

/-- Well-formedness of a section for the lyrics claim: non-empty name without
newlines; at least one line; each line non-empty, newline-free, and not
itself of bracketed-header shape. -/
def goodSection (s : PlanSection) : Prop :=
  s.section_name ≠ "" ∧ '\n' ∉ s.section_name.data ∧ s.lines ≠ [] ∧
    ∀ l ∈ s.lines, l.data ≠ [] ∧ '\n' ∉ l.data ∧ isHeaderLine l.data = false

instance : DecidablePred goodSection := fun s => by
  unfold goodSection
  infer_instance

/-- The physical-line structure of the extracted lyrics: filtering the lines
of `extractLyrics` keeps, in order, exactly one bracketed header per section
and exactly the sections' own lines as content. -/
theorem splitNl_lyrics_filter (secs : List PlanSection)
    (h : ∀ s ∈ secs, goodSection s) :
    (splitNl (strConcat (secs.map sectionText)).data).filter isHeaderLine =
        secs.map (fun s => '[' :: s.section_name.data ++ [']'])
    ∧ (splitNl (strConcat (secs.map sectionText)).data).filter isContentLine =
        secs.flatMap (fun s => s.lines.map String.data) := by
  induction secs with
  | nil =>
    constructor <;> rfl
  | cons s ss ih =>
    obtain ⟨hn1, hn2, hl1, hl2⟩ := h s (by simp)
    have ih' := ih (fun t ht => h t (by simp [ht]))
    have hdata : (strConcat ((s :: ss).map sectionText)).data =
        (sectionText s).data ++ (strConcat (ss.map sectionText)).data := by
      simp [strConcat, String.data_append]
    have hsplit := splitNl_sectionText s hn1 hl1 hn2
      (fun l hl => (hl2 l hl).2.1) (strConcat (ss.map sectionText)).data
    have hcontentHdr : (s.lines.map String.data).filter isHeaderLine = [] := by
      rw [List.filter_eq_nil_iff]
      intro a ha
      rcases List.mem_map.mp ha with ⟨l, hl, rfl⟩
      simp [(hl2 l hl).2.2]
    have hcontentCnt : (s.lines.map String.data).filter isContentLine =
        s.lines.map String.data := by
      rw [List.filter_eq_self]
      intro a ha
      rcases List.mem_map.mp ha with ⟨l, hl, rfl⟩
      simp [isContentLine, (hl2 l hl).2.2, (hl2 l hl).1]
    have hh : isHeaderLine ('[' :: s.section_name.data ++ [']']) = true :=
      isHeaderLine_header s.section_name.data
    have hnilH : isHeaderLine ([] : List Char) = false := rfl
    have hnilC : isContentLine ([] : List Char) = false := rfl
    constructor
    · rw [hdata, hsplit, List.filter_cons, hh]
      simp only [if_true, List.filter_append, hcontentHdr, List.map_cons,
        List.nil_append, List.filter_cons, hnilH]
      simp [ih'.1]
    · have hhdrNotContent : isContentLine ('[' :: s.section_name.data ++ [']']) = false := by
        unfold isContentLine
        rw [hh]
        rfl
      rw [hdata, hsplit, List.filter_cons, hhdrNotContent]
      simp only [Bool.false_eq_true, if_false, List.filter_append,
        hcontentCnt, List.filter_cons, hnilC, List.flatMap_cons]
      simp [ih'.2]

/-! ## Claims -/

/-- C1: the claim says the `get_music_examples` operation returns the static
example-prompts payload even without a credential. The code does not: in
`handle_tool_call` the branch calls the zero-parameter
`format_examples_response` with an argument, so the raised `TypeError` is
converted into a `Tool execution failed` error dictionary; and in `call_tool`
the service is constructed before dispatching, so with no credential in the
arguments (and none configured) the `ValueError` is converted into an error
text — in neither dispatcher is the examples payload returned. -/
theorem C1_examples_dispatch_fails :
    handleToolCall defaultConfig defaultEnv "get_music_examples" {} =
      (.error "Tool execution failed: format_examples_response() takes 0 positional arguments but 1 was given", 0)
    ∧ (callTool defaultConfig defaultEnv "get_music_examples" {}).1 =
      ⟨some [⟨"text", "❌ Error executing tool get_music_examples: ElevenLabs API key is required. Please provide it in the request."⟩]⟩ :=
  ⟨rfl, rfl⟩

/-- C2: the claim says the audio response formatter maps a failure result to
a single-line failure text embedding the error string. The code's
`format_audio_response` has no failure branch at all: for every result with
`success` false it falls off the end of the function and returns Python
`None`, not a text content value. -/
theorem C2_format_audio_failure_returns_none (r : GenResult)
    (h : r.success = false) : formatAudioResponse r = none := by
  simp [formatAudioResponse, h]

/-- Witness for C2 at a concrete failure result. -/
theorem C2_format_audio_failure_returns_none_witness :
    formatAudioResponse
      { success := false, error := some "Music generation failed: HTTP 500 - detail" } = none :=
  C2_format_audio_failure_returns_none
    { success := false, error := some "Music generation failed: HTTP 500 - detail" } rfl

/-- C3 counterexample: the claim asserts every valid music-generation request
has its duration clamped to the 10-second floor before being sent upstream
and echoed; the standalone REST client (`api.py`, one of the claim's cited
code sites) performs no clamping — a schema-valid duration of 5 is sent
upstream as 5000 ms (not 10000) and echoed as 5. -/
theorem C3_counterexample_api_duration_not_clamped :
    Api.musicLengthMs 5 = 5000 ∧ Api.musicLengthMs 5 ≠ 10 * 1000 ∧
    (Api.generateMusic "hip hop beat" 5 defaultMeta ⟨200, .raw []⟩).duration_seconds
      = some 5 :=
  ⟨rfl, by decide, rfl⟩

/-- C3 (amended): in the MCP-server generation client
(`elevenlabs_service.py`) the effective duration (after the Python `or`
default) is clamped to the floor 10 and the configured ceiling (30 in the
default configuration); the clamped value is what is sent upstream in
milliseconds, and it is echoed in every success result. -/
theorem C3_mcp_client_clamps_duration (dur : Option Int) (prompt : String)
    (meta : FileMeta) (resp : MusicResponse) (h200 : resp.status = 200) :
    (pyOrInt dur defaultConfig.default_duration < 10 →
        clampMusicDuration defaultConfig dur = 10)
    ∧ (pyOrInt dur defaultConfig.default_duration > 30 →
        clampMusicDuration defaultConfig dur = 30)
    ∧ musicRequestMs defaultConfig dur = clampMusicDuration defaultConfig dur * 1000
    ∧ ((generateMusic defaultConfig prompt dur meta resp).success = true →
        (generateMusic defaultConfig prompt dur meta resp).duration_seconds =
          some (clampMusicDuration defaultConfig dur)) := by
  have hcfg1 : defaultConfig.default_duration = 10 := rfl
  have hclamp : clampMusicDuration defaultConfig dur =
      if (if pyOrInt dur 10 < 10 then 10 else pyOrInt dur 10) > 30 then 30
      else (if pyOrInt dur 10 < 10 then 10 else pyOrInt dur 10) := rfl
  refine ⟨?_, ?_, rfl, ?_⟩
  · intro hlt
    rw [hcfg1] at hlt
    rw [hclamp]
    split_ifs <;> omega
  · intro hgt
    rw [hcfg1] at hgt
    rw [hclamp]
    split_ifs <;> omega
  · intro hs
    unfold generateMusic at hs ⊢
    rw [h200] at hs ⊢
    rw [if_pos (rfl : (200 : Nat) = 200)] at hs ⊢
    split at hs
    all_goals
      dsimp only at hs ⊢
      split at hs
      · rename_i hab
        rw [if_pos hab]
      · rename_i hab
        rw [if_neg hab]
        split at hs
        · rfl
        · simp at hs

/-- Witness for C3: at the concrete below-floor duration 5 the MCP client
clamps to 10. -/
theorem C3_mcp_client_clamps_duration_witness :
    pyOrInt (some 5) defaultConfig.default_duration < 10 ∧
    clampMusicDuration defaultConfig (some 5) = 10 ∧
    (generateMusic defaultConfig "p" (some 5) defaultMeta ⟨200, .raw []⟩).duration_seconds
      = some (clampMusicDuration defaultConfig (some 5)) := by
  have h := C3_mcp_client_clamps_duration (some 5) "p" defaultMeta ⟨200, .raw []⟩ rfl
  exact ⟨by decide, h.1 (by decide), h.2.2.2 (by decide)⟩

/-- C4: every `handle_tool_call` dispatch to a credential-requiring tool with
a missing or empty `elevenlabs_api_key` argument returns the credential error
dictionary and performs zero upstream client calls; and `call_tool` (whose
service construction falls back to the configured key) does the same for
every tool name whenever the configured key is also empty, returning the
credential error text. -/
theorem C4_missing_credential_no_upstream_call (cfg : MCPConfig)
    (env : UpstreamEnv) (args : ToolArgs)
    (hkey : pyTruthyStr args.elevenlabs_api_key = false) :
    handleToolCall cfg env "generate_music" args =
      (.error "ElevenLabs API key is required", 0)
    ∧ handleToolCall cfg env "generate_sound_effect" args =
      (.error "ElevenLabs API key is required", 0)
    ∧ handleToolCall cfg env "test_elevenlabs_connection" args =
      (.error "ElevenLabs API key is required", 0)
    ∧ handleToolCall cfg env "get_available_models" args =
      (.error "ElevenLabs API key is required", 0)
    ∧ (cfg.elevenlabs_api_key = "" → ∀ name,
        callTool cfg env name args =
          (⟨some [⟨"text", "❌ Error executing tool " ++ name ++ ": ElevenLabs API key is required. Please provide it in the request."⟩]⟩, 0)) := by
  have hk : args.elevenlabs_api_key.getD "" = "" := by
    cases h : args.elevenlabs_api_key with
    | none => rfl
    | some s =>
      rw [h] at hkey
      simp only [pyTruthyStr, decide_eq_false_iff_not, not_not] at hkey
      simpa using hkey
  refine ⟨?_, ?_, ?_, ?_, ?_⟩
  · simp [handleToolCall, hkey]
  · simp [handleToolCall, hkey]
  · simp [handleToolCall, hkey]
  · simp [handleToolCall, hkey]
  · intro hcfg name
    simp [callTool, hk, hcfg]

/-- Witness for C4 with an empty argument bag, the default (keyless)
configuration, and the `generate_music` tool. -/
theorem C4_missing_credential_no_upstream_call_witness :
    pyTruthyStr (ToolArgs.elevenlabs_api_key {}) = false ∧
    handleToolCall defaultConfig defaultEnv "generate_music" {} =
      (.error "ElevenLabs API key is required", 0) ∧
    callTool defaultConfig defaultEnv "generate_music" {} =
      (⟨some [⟨"text", "❌ Error executing tool generate_music: ElevenLabs API key is required. Please provide it in the request."⟩]⟩, 0) := by
  have h := C4_missing_credential_no_upstream_call defaultConfig defaultEnv {} rfl
  exact ⟨rfl, h.1, h.2.2.2.2 rfl "generate_music"⟩

/-- C5 counterexample: the claim counts exactly N bracketed headers for a
plan of N sections with non-empty names; but a section whose `lines` list is
empty is skipped entirely (its header is never emitted), so a one-section
plan with name "Chorus" and no lines yields lyrics with 0 headers, not 1. -/
theorem C5_counterexample_section_with_no_lines :
    extractLyrics (some ⟨[⟨"Chorus", []⟩]⟩) = ""
    ∧ ¬ ((lyricsLines (extractLyrics (some ⟨[⟨"Chorus", []⟩]⟩))).filter
          isHeaderLine).length =
        ([⟨"Chorus", []⟩] : List PlanSection).length :=
  ⟨rfl, by decide⟩

/-- C5 (amended): for a plan whose sections each have a non-empty,
newline-free name and at least one line, each line non-empty, newline-free
and not itself bracket-shaped, the extracted lyrics contain exactly one
bracketed header per section and exactly the sections' lines as content, in
original order; in particular N headers and sum(M) content lines. -/
theorem C5_lyrics_headers_and_content (p : CompositionPlan)
    (h : ∀ s ∈ p.sections, goodSection s) :
    (lyricsLines (extractLyrics (some p))).filter isHeaderLine =
        p.sections.map (fun s => '[' :: s.section_name.data ++ [']'])
    ∧ (lyricsLines (extractLyrics (some p))).filter isContentLine =
        p.sections.flatMap (fun s => s.lines.map String.data)
    ∧ ((lyricsLines (extractLyrics (some p))).filter isHeaderLine).length =
        p.sections.length
    ∧ ((lyricsLines (extractLyrics (some p))).filter isContentLine).length =
        (p.sections.map (fun s => s.lines.length)).sum := by
  have h' := splitNl_lyrics_filter p.sections h
  have hlines : lyricsLines (extractLyrics (some p)) =
      splitNl (strConcat (p.sections.map sectionText)).data := rfl
  refine ⟨hlines ▸ h'.1, hlines ▸ h'.2, ?_, ?_⟩
  · rw [hlines, h'.1, List.length_map]
  · rw [hlines, h'.2, List.length_flatMap]
    simp [Function.comp_def]

/-- Witness for C5 at a concrete two-section plan (2 headers, 3 content
lines). -/
theorem C5_lyrics_headers_and_content_witness :
    (∀ s ∈ ([⟨"Verse", ["la", "di"]⟩, ⟨"Chorus", ["na"]⟩] :
        List PlanSection), goodSection s)
    ∧ ((lyricsLines (extractLyrics
          (some ⟨[⟨"Verse", ["la", "di"]⟩, ⟨"Chorus", ["na"]⟩]⟩))).filter
        isHeaderLine).length = 2
    ∧ ((lyricsLines (extractLyrics
          (some ⟨[⟨"Verse", ["la", "di"]⟩, ⟨"Chorus", ["na"]⟩]⟩))).filter
        isContentLine).length = 3 := by
  have h := C5_lyrics_headers_and_content
    ⟨[⟨"Verse", ["la", "di"]⟩, ⟨"Chorus", ["na"]⟩]⟩ (by decide)
  exact ⟨by decide, h.2.2.1.trans rfl, h.2.2.2.trans rfl⟩

/-- C6 counterexample: the claim says every 200 JSON response whose `audio`
field is a string yields a success-flagged result carrying that string; but
the code computes `file_size` by base64-decoding the string, so a
non-decodable string (here `"A"`) raises `binascii.Error` and the exception
path yields a failure result with no audio payload. -/
theorem C6_counterexample_nondecodable_audio_string :
    (generateMusic defaultConfig "p" (some 10) defaultMeta
        ⟨200, .parsed ⟨.str "A", none, none⟩ "rendered"⟩).success = false
    ∧ (generateMusic defaultConfig "p" (some 10) defaultMeta
        ⟨200, .parsed ⟨.str "A", none, none⟩ "rendered"⟩).audio_base64 = none :=
  ⟨rfl, rfl⟩

/-- C6 (amended): for every 200 response with a parsed JSON body whose
`audio` field is a string that base64-decodes, the result is success-flagged
and its `audio_base64` equals that string exactly, with no re-encoding. -/
theorem C6_audio_string_passthrough (cfg : MCPConfig) (prompt : String)
    (dur : Option Int) (meta : FileMeta) (j : UpstreamJson) (rendered s : String)
    (haudio : j.audio = .str s) (hdec : (b64decode s).isSome = true) :
    (generateMusic cfg prompt dur meta ⟨200, .parsed j rendered⟩).success = true
    ∧ (generateMusic cfg prompt dur meta ⟨200, .parsed j rendered⟩).audio_base64
      = some s := by
  have hab : audioFieldBase64 j.audio = s := by
    rw [haudio]
    rfl
  unfold generateMusic
  rw [if_pos (rfl : (200 : Nat) = 200)]
  dsimp only
  rw [hab]
  by_cases hs : s = ""
  · rw [if_pos hs]
    exact ⟨rfl, by rw [hs]⟩
  · rw [if_neg hs]
    rcases Option.isSome_iff_exists.mp hdec with ⟨bytes, hbytes⟩
    rw [hbytes]
    exact ⟨rfl, rfl⟩

/-- Witness for C6 at the concrete decodable audio string "AAEC". -/
theorem C6_audio_string_passthrough_witness :
    (b64decode "AAEC").isSome = true
    ∧ (generateMusic defaultConfig "p" (some 10) defaultMeta
        ⟨200, .parsed ⟨.str "AAEC", none, none⟩ "r"⟩).audio_base64 = some "AAEC" := by
  have h := C6_audio_string_passthrough defaultConfig "p" (some 10) defaultMeta
    ⟨.str "AAEC", none, none⟩ "r" "AAEC" rfl (by decide)
  exact ⟨by decide, h.2⟩

/-- C7: for every 200 response whose `audio` field holds raw bytes, and for
every 200 response whose body does not parse as JSON (treated wholly as raw
audio), the result's `audio_base64` is the base64 encoding of those bytes,
and decoding it recovers the bytes exactly (round-trip law). -/
theorem C7_audio_bytes_roundtrip (cfg : MCPConfig) (prompt : String)
    (dur : Option Int) (meta : FileMeta) (plan : Option CompositionPlan)
    (sm : Option String) (rendered : String) (bs : List Nat)
    (h : ∀ b ∈ bs, b < 256) :
    (generateMusic cfg prompt dur meta
        ⟨200, .parsed ⟨.bytes bs, plan, sm⟩ rendered⟩).audio_base64
      = some (b64encode bs)
    ∧ (generateMusic cfg prompt dur meta ⟨200, .raw bs⟩).audio_base64
      = some (b64encode bs)
    ∧ b64decode (b64encode bs) = some bs := by
  have hrt := b64decode_b64encode bs h
  have hone : ∀ body : MusicBody,
      (match body with
       | .parsed j _ => audioFieldBase64 j.audio
       | .raw content => b64encode content) = b64encode bs →
      (generateMusic cfg prompt dur meta ⟨200, body⟩).audio_base64
        = some (b64encode bs) := by
    intro body hab
    unfold generateMusic
    rw [if_pos (rfl : (200 : Nat) = 200)]
    dsimp only
    rw [hab]
    by_cases he : b64encode bs = ""
    · rw [if_pos he]
    · rw [if_neg he, hrt]
  exact ⟨hone (.parsed ⟨.bytes bs, plan, sm⟩ rendered) rfl, hone (.raw bs) rfl, hrt⟩

/-- Witness for C7 at the concrete bytes `b"\x00\x01\x02"`. -/
theorem C7_audio_bytes_roundtrip_witness :
    (∀ b ∈ [0, 1, 2], b < 256)
    ∧ (generateMusic defaultConfig "p" (some 10) defaultMeta
        ⟨200, .raw [0, 1, 2]⟩).audio_base64 = some (b64encode [0, 1, 2])
    ∧ b64decode (b64encode [0, 1, 2]) = some [0, 1, 2] := by
  have h := C7_audio_bytes_roundtrip defaultConfig "p" (some 10) defaultMeta
    none none "r" [0, 1, 2] (by decide)
  exact ⟨by decide, h.2.1, h.2.2⟩

/-- C8: for every upstream non-200 response, `generate_music` and
`generate_sound_effect` return a failure-flagged result whose error string
embeds the HTTP status (and the parsed JSON detail when the body parses as
JSON, else the body text), and which carries no audio payload (nor any other
success field). -/
theorem C8_non200_failure (cfg : MCPConfig) (prompt : String)
    (dur : Option Int) (meta : FileMeta) (resp : MusicResponse)
    (sresp : SoundResponse) (hm : resp.status ≠ 200) (hs : sresp.status ≠ 200) :
    generateMusic cfg prompt dur meta resp =
      { success := false,
        error := some ("Music generation failed: HTTP " ++ toString resp.status
          ++ " - " ++ (match resp.body with
                       | .parsed _ rendered => rendered
                       | .raw bs => textOfBytes bs)) }
    ∧ (generateMusic cfg prompt dur meta resp).audio_base64 = none
    ∧ generateSoundEffect prompt dur meta sresp =
      { success := false,
        error := some ("Sound generation failed: HTTP " ++ toString sresp.status
          ++ " - " ++ (match sresp.rendered with
                       | some j => j
                       | none => textOfBytes sresp.content)) }
    ∧ (generateSoundEffect prompt dur meta sresp).audio_base64 = none := by
  have h1 : generateMusic cfg prompt dur meta resp =
      { success := false, error := some (musicErrorMsg resp) } := by
    unfold generateMusic
    rw [if_neg hm]
  have h2 : generateSoundEffect prompt dur meta sresp =
      { success := false, error := some (soundErrorMsg sresp) } := by
    unfold generateSoundEffect
    rw [if_neg hs]
  exact ⟨h1, by rw [h1], h2, by rw [h2]⟩

/-- Witness for C8 at concrete 404 responses. -/
theorem C8_non200_failure_witness :
    generateMusic defaultConfig "p" (some 10) defaultMeta ⟨404, .raw [110, 111]⟩ =
      { success := false,
        error := some ("Music generation failed: HTTP 404 - " ++ textOfBytes [110, 111]) }
    ∧ generateSoundEffect "p" (some 5) defaultMeta ⟨422, [], some "detail"⟩ =
      { success := false,
        error := some "Sound generation failed: HTTP 422 - detail" } := by
  have h := C8_non200_failure defaultConfig "p" (some 10) defaultMeta
    ⟨404, .raw [110, 111]⟩ ⟨422, [], some "detail"⟩ (by decide) (by decide)
  exact ⟨h.1, h.2.2.1⟩

/-- C9: scenario — `generate_sound_effect` with prompt "Thunder and
lightning storm", duration 5, against a 200 upstream response with body
bytes `b"\x00\x01\x02"`, yields success with `file_size` 3, mime type
`audio/mpeg`, duration 5, the prompt echoed, and `audio_base64 = "AAEC"`
(the base64 encoding of those bytes). -/
theorem C9_sound_effect_scenario :
    generateSoundEffect "Thunder and lightning storm" (some 5) defaultMeta
        ⟨200, [0, 1, 2], none⟩ =
      { success := true, audio_base64 := some (b64encode [0, 1, 2]),
        filename := some (soundFilename defaultMeta), file_size := some 3,
        duration_seconds := some 5, prompt := some "Thunder and lightning storm",
        mime_type := some "audio/mpeg" }
    ∧ b64encode [0, 1, 2] = "AAEC" :=
  ⟨rfl, rfl⟩

/-- C10: every success-flagged result of `generate_music` or
`generate_sound_effect` has a `file_size` equal to the byte length of the
base64-decoded `audio_base64` payload. -/
theorem C10_file_size_matches_payload (cfg : MCPConfig) (prompt : String)
    (dur : Option Int) (meta : FileMeta) (resp : MusicResponse)
    (sresp : SoundResponse) (hb : ∀ b ∈ sresp.content, b < 256) :
    ((generateMusic cfg prompt dur meta resp).success = true →
      ∃ s bytes, (generateMusic cfg prompt dur meta resp).audio_base64 = some s
        ∧ b64decode s = some bytes
        ∧ (generateMusic cfg prompt dur meta resp).file_size = some bytes.length)
    ∧ ((generateSoundEffect prompt dur meta sresp).success = true →
      ∃ s bytes, (generateSoundEffect prompt dur meta sresp).audio_base64 = some s
        ∧ b64decode s = some bytes
        ∧ (generateSoundEffect prompt dur meta sresp).file_size = some bytes.length) := by
  constructor
  · intro hsucc
    unfold generateMusic at hsucc ⊢
    by_cases h200 : resp.status = 200
    · rw [h200] at hsucc ⊢
      rw [if_pos (rfl : (200 : Nat) = 200)] at hsucc ⊢
      split at hsucc
      all_goals dsimp only at hsucc ⊢
      all_goals
        split at hsucc
        · rename_i hab
          rw [if_pos hab]
          refine ⟨_, [], rfl, ?_, rfl⟩
          rw [hab]
          rfl
        · rename_i hab
          rw [if_neg hab]
          split at hsucc
          · rename_i bytes heq
            exact ⟨_, bytes, rfl, heq, rfl⟩
          · simp at hsucc
    · rw [if_neg h200] at hsucc
      simp at hsucc
  · intro hsucc
    unfold generateSoundEffect at hsucc ⊢
    by_cases h200 : sresp.status = 200
    · rw [h200] at hsucc ⊢
      rw [if_pos (rfl : (200 : Nat) = 200)] at hsucc ⊢
      exact ⟨b64encode sresp.content, sresp.content, rfl,
        b64decode_b64encode sresp.content hb, rfl⟩
    · rw [if_neg h200] at hsucc
      simp at hsucc

/-- Witness for C10 at concrete 200 responses. -/
theorem C10_file_size_matches_payload_witness :
    (∀ b ∈ [7, 8, 9], b < 256)
    ∧ (∃ s bytes,
        (generateMusic defaultConfig "p" (some 10) defaultMeta
            ⟨200, .raw [1, 2]⟩).audio_base64 = some s
        ∧ b64decode s = some bytes
        ∧ (generateMusic defaultConfig "p" (some 10) defaultMeta
            ⟨200, .raw [1, 2]⟩).file_size = some bytes.length)
    ∧ (∃ s bytes,
        (generateSoundEffect "p" (some 5) defaultMeta
            ⟨200, [7, 8, 9], none⟩).audio_base64 = some s
        ∧ b64decode s = some bytes
        ∧ (generateSoundEffect "p" (some 5) defaultMeta
            ⟨200, [7, 8, 9], none⟩).file_size = some bytes.length) := by
  have h := C10_file_size_matches_payload defaultConfig "p" (some 10) defaultMeta
    ⟨200, .raw [1, 2]⟩ ⟨200, [7, 8, 9], none⟩ (by decide)
  exact ⟨by decide, h.1 (by decide), h.2 (by decide)⟩

end GitBeat
